import Mathlib

/-!
Shallow embedding of `src/policy_head.py` (DI-card policy head).

The Python module defines two `nn.Module` classes:
* `ActionArgHead`  - a cross-attention-style scorer built from two `nn.Linear`
  maps `W_k`, `W_q` (lines 11-44);
* `GenshinVAC`     - an actor-critic wrapper with `forward` dispatch,
  `compute_actor`, `compute_critic`, `compute_actor_critic` (lines 47-181).

Python runtime behaviour (errors included) is modelled with `Except PyErr`.
Tensors are integer tensors given by a shape and a flattened data list, and
the torch operations used by the source (`nn.Linear.__call__`, `+`,
`unsqueeze`, `.T`, `torch.mm`, `squeeze`, `torch.argmax`, `torch.multinomial`,
`.item()`) are embedded below with their shape checks.  Randomness is an
explicit stream of naturals consumed by `torch.multinomial`.

Free (non-`self`) name references inside method bodies resolve through an
explicit environment `Env` standing for the module's global scope; in the
actual module none of the names the methods look up (`sample_action_typein`,
`action_type_names`, `action_obs_name_map`, `actor_head_layer_num`) is bound
at module scope, which `moduleEnv` records.
-/

/-- Kinds of Python runtime errors the embedded code can raise. -/
inductive PyErr where
  | nameError (n : String)
  | typeError (msg : String)
  | assertionError (msg : String)
  | runtimeError (msg : String)
  | keyError (k : String)
  | indexError (msg : String)
  deriving DecidableEq, Repr

/-- An integer tensor: a shape and row-major flattened data. -/
structure Tensor where
  shape : List Nat
  data : List Int
  deriving DecidableEq, Repr

/-- Python values flowing through the embedded methods. -/
inductive Value where
  | int (i : Int)
  | str (s : String)
  | tensor (t : Tensor)
  | dict (entries : List (String × Value))
  deriving Repr

/-- Module-global name resolution: a lookup table for free names. -/
def Env : Type := String → Option Value

/-- The actual module scope of `policy_head.py`: none of the free names the
methods reference (`sample_action_typein`, `action_type_names`,
`action_obs_name_map`, `actor_head_layer_num`) is bound there. -/
def moduleEnv : Env := fun _ => none

/-- Looking a bare name up in the enclosing scope; unbound names raise
`NameError` as in CPython. -/
def lookupName (env : Env) (n : String) : Except PyErr Value :=
  match env n with
  | some v => Except.ok v
  | none => Except.error (PyErr.nameError n)

/-- Number of elements of a tensor shape. -/
def numelOf (shape : List Nat) : Nat := shape.foldr (· * ·) 1

/-- Row-major strides of a shape: `strides[i] = prod shape[i+1:]`. -/
def stridesOf : List Nat → List Nat
  | [] => []
  | _ :: rest => (rest.foldr (· * ·) 1) :: stridesOf rest

/-- Multi-index of a flat index for a given shape. -/
def toMultiIndex (shape : List Nat) (i : Nat) : List Nat :=
  List.zipWith (fun d s => (i / s) % d) shape (stridesOf shape)

/-- Flat index of a multi-index for given strides. -/
def fromMultiIndex (strides : List Nat) (mi : List Nat) : Nat :=
  (List.zipWith (· * ·) mi strides).foldr (· + ·) 0

/-- `Tensor.T`: reverses every dimension (torch `.T` semantics, which on a
3-D tensor gives the fully reversed layout, not a batched transpose). -/
def tensorT (t : Tensor) : Tensor :=
  let shape' := t.shape.reverse
  let data' := (List.range (numelOf shape')).map fun i =>
    t.data.getD (fromMultiIndex (stridesOf t.shape) ((toMultiIndex shape' i).reverse)) 0
  ⟨shape', data'⟩

/-- Integer dot product. -/
def dotInt (a b : List Int) : Int :=
  (List.zipWith (· * ·) a b).foldr (· + ·) 0

/-- The `n` rows of length `d` of a flattened data list. -/
def rowChunks (d : Nat) (n : Nat) (data : List Int) : List (List Int) :=
  (List.range n).map fun r => (data.drop (r * d)).take d

/-- An `nn.Linear(inFeatures, outFeatures)` weight/bias pair. -/
structure Linear where
  inFeatures : Nat
  outFeatures : Nat
  weight : List (List Int)
  bias : List Int
  deriving Repr

/-- `nn.Linear.__call__`: applies the affine map along the last dimension,
raising the torch shape error when the last dimension mismatches. -/
def Linear.forward (l : Linear) (t : Tensor) : Except PyErr Tensor :=
  match t.shape.getLast? with
  | none => Except.error (PyErr.runtimeError "linear expects at least 1 dimension")
  | some d =>
    if d = l.inFeatures then
      let nRows := numelOf t.shape / l.inFeatures
      let rows := rowChunks l.inFeatures nRows t.data
      let data' := rows.flatMap fun row =>
        List.zipWith (fun wrow b => b + dotInt wrow row) l.weight l.bias
      Except.ok ⟨t.shape.dropLast ++ [l.outFeatures], data'⟩
    else Except.error (PyErr.runtimeError "mat1 and mat2 shapes cannot be multiplied")

/-- Elementwise tensor addition.  Both uses in the source add tensors of the
same shape (`W_q(action_type_logit)` and `obs_embedding` share shape `(B, H)`
when the module dimensions are consistent); torch broadcasting between
distinct shapes is not exercised and is modelled as the shape error. -/
def torchAdd (a b : Tensor) : Except PyErr Tensor :=
  if a.shape = b.shape then Except.ok ⟨a.shape, List.zipWith (· + ·) a.data b.data⟩
  else Except.error (PyErr.runtimeError "the shapes must match")

/-- `Tensor.unsqueeze(1)`: inserts a size-1 dimension at position 1. -/
def torchUnsqueeze1 (t : Tensor) : Except PyErr Tensor :=
  match t.shape with
  | [] => Except.error (PyErr.indexError "dimension out of range")
  | d :: rest => Except.ok ⟨d :: 1 :: rest, t.data⟩

/-- `Tensor.squeeze(1)`: drops dimension 1 when it has size 1. -/
def torchSqueeze1 (t : Tensor) : Except PyErr Tensor :=
  match t.shape with
  | d :: e :: rest =>
    if e = 1 then Except.ok ⟨d :: rest, t.data⟩ else Except.ok t
  | _ => Except.error (PyErr.indexError "dimension out of range")

/-- `torch.mm`: strict 2-D matrix multiplication; torch raises on any input
that is not a matrix and never broadcasts. -/
def torchMM (a b : Tensor) : Except PyErr Tensor :=
  match a.shape, b.shape with
  | [m, k], [k2, p] =>
    if k = k2 then
      let ra := rowChunks k m a.data
      let data' := (List.range m).flatMap fun i =>
        (List.range p).map fun j =>
          dotInt (ra.getD i []) ((List.range k).map fun l => b.data.getD (l * p + j) 0)
      Except.ok ⟨[m, p], data'⟩
    else Except.error (PyErr.runtimeError "mat1 and mat2 shapes cannot be multiplied")
  | _, _ => Except.error (PyErr.runtimeError "self must be a matrix")

/-- First index holding the maximum, scanning left to right. -/
def argmaxFrom (best : Int) (bestIdx : Nat) (i : Nat) : List Int → Nat
  | [] => bestIdx
  | x :: rest =>
    if best < x then argmaxFrom x i (i + 1) rest else argmaxFrom best bestIdx (i + 1) rest

/-- `torch.argmax(t).item()`: index of the maximum over the flattened data. -/
def torchArgmaxFlat (t : Tensor) : Except PyErr Int :=
  match t.data with
  | [] => Except.error (PyErr.runtimeError "argmax on an empty tensor")
  | x :: rest => Except.ok (argmaxFrom x 0 1 rest)

/-- `torch.argmax(t, 1)` on the 2-D tensors the source applies it to:
row-wise argmax, result shape `(B,)`.  Higher ranks are not reached by the
source on any modelled path. -/
def torchArgmaxDim1 (t : Tensor) : Except PyErr Tensor :=
  match t.shape with
  | [b, a] =>
    if a = 0 then Except.error (PyErr.runtimeError "argmax on an empty tensor")
    else
      let rows := rowChunks a b t.data
      let data' := rows.map fun row =>
        match row with
        | [] => (0 : Int)
        | x :: rest => (argmaxFrom x 0 1 rest : Int)
      Except.ok ⟨[b], data'⟩
  | _ => Except.error (PyErr.runtimeError "argmax dim expects a 2-D tensor here")

/-- `.item()`: the sole element of a one-element tensor. -/
def tensorItem (t : Tensor) : Except PyErr Int :=
  match t.data with
  | [x] => Except.ok x
  | _ => Except.error (PyErr.runtimeError "a Tensor with more or less than one element")

/-- Walks cumulative weights to pick the index a draw value `r` lands in. -/
def pickIndex (ws : List Int) (r : Int) : Nat :=
  match ws with
  | [] => 0
  | w :: rest => if r < w then 0 else pickIndex rest (r - w) + 1

/-- One `torch.multinomial` row draw: requires non-negative weights with a
positive sum, consumes one element of the random stream. -/
def drawRow (row : List Int) (rng : List Nat) : Except PyErr (Int × List Nat) :=
  let s := row.foldr (· + ·) 0
  if row.all (fun w => 0 ≤ w) && decide (0 < s) then
    Except.ok ((pickIndex row ((rng.headD 0 : Int) % s) : Int), rng.tail)
  else Except.error (PyErr.runtimeError "invalid multinomial distribution")

/-- Row draws for a stack of rows. -/
def drawRows : List (List Int) → List Nat → Except PyErr (List Int × List Nat)
  | [], rng => Except.ok ([], rng)
  | row :: rest, rng => do
    let (i, rng') ← drawRow row rng
    let (is, rng'') ← drawRows rest rng'
    Except.ok (i :: is, rng'')

/-- `torch.multinomial(t, 1)`: validity-checked categorical draw per row,
deterministic in the explicit random stream. -/
def torchMultinomial (t : Tensor) (rng : List Nat) : Except PyErr (Tensor × List Nat) :=
  match t.shape with
  | [n] => do
    let (i, rng') ← drawRow ((t.data.drop 0).take n) rng
    Except.ok (⟨[1], [i]⟩, rng')
  | [b, n] => do
    let (is, rng') ← drawRows (rowChunks n b t.data) rng
    Except.ok (⟨[b, 1], is⟩, rng')
  | _ => Except.error (PyErr.runtimeError "prob_dist must be 1 or 2 dim")

/-- Python truthiness of the modelled values (only reachable behind the
always-failing subscript on line 119/157, kept for structural fidelity). -/
def truthy : Value → Bool
  | Value.int i => decide (i ≠ 0)
  | Value.str s => decide (s ≠ "")
  | Value.tensor t =>
    match t.data with
    | [x] => decide (x ≠ 0)
    | _ => false
  | Value.dict es => !es.isEmpty

/-- `assert cond, msg`. -/
def pyAssert (cond : Value) (msg : String) : Except PyErr Unit :=
  if truthy cond then Except.ok () else Except.error (PyErr.assertionError msg)

/-- Subscripting a value with a list literal, as in the source's
`sample_action_typein ["argmax", "normal"]` (line 119/157): every modelled
value rejects it (dicts because a list is unhashable, the rest because a
list is an invalid index). -/
def subscriptList (_v : Value) : Except PyErr Value :=
  Except.error (PyErr.typeError "unhashable type: list")

/-- Dict subscript by a string key. -/
def getItem (v : Value) (k : String) : Except PyErr Value :=
  match v with
  | Value.dict es =>
    match es.lookup k with
    | some x => Except.ok x
    | none => Except.error (PyErr.keyError k)
  | _ => Except.error (PyErr.typeError "object is not subscriptable")

/-- Subscript by an integer: string-keyed dicts never hold an int key; lists
of values are not among the modelled containers, so only the errors arise. -/
def subscriptInt (v : Value) (i : Int) : Except PyErr Value :=
  match v with
  | Value.dict _ => Except.error (PyErr.keyError (toString i))
  | _ => Except.error (PyErr.typeError "object is not subscriptable")

/-- Subscript by an arbitrary value key. -/
def subscriptVal (v : Value) (k : Value) : Except PyErr Value :=
  match k with
  | Value.str s => getItem v s
  | Value.int i => subscriptInt v i
  | _ => Except.error (PyErr.typeError "unhashable key")

/-- Coercion of a value to a tensor for the torch calls. -/
def expectTensor (v : Value) : Except PyErr Tensor :=
  match v with
  | Value.tensor t => Except.ok t
  | _ => Except.error (PyErr.typeError "expected a tensor")

/-- Coercion of a value to a string (the `ModuleDict` key). -/
def expectStr (v : Value) : Except PyErr String :=
  match v with
  | Value.str s => Except.ok s
  | _ => Except.error (PyErr.typeError "expected a string key")

/-- `ActionArgHead` (lines 18-28): two linear maps `W_k`, `W_q`. -/
structure ActionArgHead where
  W_k : Linear
  W_q : Linear
  deriving Repr

/-- `ActionArgHead.forward` (lines 30-44), line by line:
`key = self.W_k(encoded_part_obs)`;
`query = self.W_q(action_type_logit) + obs_embedding`;
`query = query.unsqueeze(1)`;
`logit = torch.mm(query, key.T)`;
`logit = logit.squeeze(1)`. -/
def ActionArgHead.forward (h : ActionArgHead)
    (obs_embedding action_type_logit encoded_part_obs : Tensor) :
    Except PyErr Tensor := do
  let key ← h.W_k.forward encoded_part_obs
  let wq ← h.W_q.forward action_type_logit
  let query ← torchAdd wq obs_embedding
  let query2 ← torchUnsqueeze1 query
  let logit ← torchMM query2 (tensorT key)
  torchSqueeze1 logit

/-- Modelled from the spec: the `ActionSpace` class lives in `action.py`,
which is not part of the provided sources.  Per the spec's constructor
description it carries a type count (`action_space['action_type_space'].n`)
and the per-type argument groups (`action_space['action_arg_space']`, a
collection of action names). -/
structure ActionSpace where
  action_type_space_n : Nat
  action_arg_space : List String

/-- The external `ding` head library: constructors for `RegressionHead` and
`DiscreteHead` instances (each instance being its forward function), and
`nn.Linear` weight initialisation.  The library is outside this repository,
so its instances are abstract functions. -/
structure LibModules where
  regressionHead : Nat → Nat → Nat → (Value → Except PyErr Value)
  discreteHead : Nat → Nat → Value → (Value → Except PyErr Value)
  mkLinear : Nat → Nat → Linear

/-- A constructed `GenshinVAC` instance: the critic `RegressionHead`, the
actor `DiscreteHead`, and the `ModuleDict` of `ActionArgHead`s. -/
structure GenshinVAC where
  obsEmbeddingShape : Nat
  actionShape : Value
  criticHead : Value → Except PyErr Value
  actorActionType : Value → Except PyErr Value
  actorActionArgs : List (String × ActionArgHead)

/-- `GenshinVAC.mode` (line 54). -/
def GenshinVACmodeList : List String :=
  ["compute_actor", "compute_critic", "compute_actor_critic"]

/-- Python `str()` of a list of strings, as `"{}".format` renders
`self.mode` in the line-109 assertion message. -/
def pyListRepr (l : List String) : String :=
  "[" ++ String.intercalate ", " (l.map fun s => "'" ++ s ++ "'") ++ "]"

/-- `ding.utils.squeeze` on an `int` shape is the identity (line 75). -/
def squeezeShape (n : Nat) : Nat := n

/-- `ActionArgHead.__init__` (lines 18-28): fresh `nn.Linear` weights for
`W_k : encoded_part_obs_shape -> hidden` and
`W_q : action_type_logit_shape -> hidden`. -/
def actionArgHeadInit (lib : LibModules)
    (encoded_part_obs_shape action_type_logit_shape hidden_size : Nat) :
    ActionArgHead :=
  { W_k := lib.mkLinear encoded_part_obs_shape hidden_size
    W_q := lib.mkLinear action_type_logit_shape hidden_size }

/-- The `nn.ModuleDict` comprehension of lines 97-105: for each name of
`action_space['action_arg_space']` not in `['elemental_harmony',
'end_round']`, build an `ActionArgHead` whose key size is
`encoded_obs_shape[action_obs_name_map[action_name]]` - where
`action_obs_name_map` is a bare (hence global-scope) name reference. -/
def buildActorActionArgs (lib : LibModules) (env : Env)
    (encoded_obs_shape : List (String × Nat))
    (obs_embedding_shape action_type_n : Nat) :
    List String → Except PyErr (List (String × ActionArgHead))
  | [] => Except.ok []
  | name :: rest =>
    if List.elem name ["elemental_harmony", "end_round"] then
      buildActorActionArgs lib env encoded_obs_shape obs_embedding_shape action_type_n rest
    else do
      let aonm ← lookupName env "action_obs_name_map"
      let obsName ← getItem aonm name
      let keySize ←
        match obsName with
        | Value.str s =>
          match encoded_obs_shape.lookup s with
          | some d => Except.ok d
          | none => Except.error (PyErr.keyError s)
        | _ => Except.error (PyErr.typeError "unhashable key")
      let head := actionArgHeadInit lib keySize action_type_n obs_embedding_shape
      let tail ← buildActorActionArgs lib env encoded_obs_shape obs_embedding_shape action_type_n rest
      Except.ok ((name, head) :: tail)

/-- `GenshinVAC.__init__` (lines 60-106), in source order:
line 75 `squeeze`; lines 79-85 `RegressionHead(critic_head_hidden_size, 1,
critic_head_layer_num, ...)`; lines 89-95 `DiscreteHead(obs_embedding_shape,
action_space['action_type_space'].n, actor_head_layer_num, ...)` - whose
third argument is the bare name `actor_head_layer_num` (the corresponding
parameter is commented out on line 67), resolved through the global scope;
lines 97-105 the `ModuleDict` comprehension. -/
def GenshinVACinit (lib : LibModules) (env : Env)
    (obs_embedding_shape : Nat) (action_shape : Value)
    (action_space : ActionSpace) (encoded_obs_shape : List (String × Nat))
    (critic_head_hidden_size critic_head_layer_num : Nat) :
    Except PyErr GenshinVAC := do
  let obsShape := squeezeShape obs_embedding_shape
  let critic_head := lib.regressionHead critic_head_hidden_size 1 critic_head_layer_num
  let n := action_space.action_type_space_n
  let layerNum ← lookupName env "actor_head_layer_num"
  let actor_action_type := lib.discreteHead obsShape n layerNum
  let actor_action_args ←
    buildActorActionArgs lib env encoded_obs_shape obsShape n action_space.action_arg_space
  Except.ok
    { obsEmbeddingShape := obsShape
      actionShape := action_shape
      criticHead := critic_head
      actorActionType := actor_action_type
      actorActionArgs := actor_action_args }

/-- `ModuleDict` subscript (lines 126/136/164/174). -/
def moduleDictGet (l : List (String × ActionArgHead)) (k : String) :
    Except PyErr ActionArgHead :=
  match l.lookup k with
  | some h => Except.ok h
  | none => Except.error (PyErr.keyError k)

/-- `GenshinVAC.compute_critic` (lines 145-147):
`x = self.critic_head(obs_embedding); return {'value': x['pred']}`. -/
def computeCritic (m : GenshinVAC) (obs_embedding : Value) : Except PyErr Value := do
  let x ← m.criticHead obs_embedding
  let p ← getItem x "pred"
  Except.ok (Value.dict [("value", p)])

/-- `GenshinVAC.compute_actor` (lines 112-143).  Line 119 reads
`assert sample_action_typein ["argmax", "normal"], "sample_action_type
should be 'argmax' or 'normal'"`, which CPython parses as subscripting the
name `sample_action_typein` with a list literal; that name is looked up in
the enclosing scope.  Lines 124-125 and 134-135 reference
`action_type_names` and `action_obs_name_map` as bare names, likewise
resolved through the enclosing scope.  When neither branch of the
`if`/`elif` runs, line 143 reads the never-assigned local `action_type`
(`UnboundLocalError`, a `NameError`). -/
def computeActor (env : Env) (m : GenshinVAC)
    (obs_embedding encoded_obs : Value) (sample_action_type : String)
    (rng : List Nat) : Except PyErr (Value × List Nat) := do
  let sub ← lookupName env "sample_action_typein"
  let cond ← subscriptList sub
  let _ ← pyAssert cond "sample_action_type should be 'argmax' or 'normal'"
  let atd ← m.actorActionType obs_embedding
  let action_type_logit ← getItem atd "logit"
  if sample_action_type = "normal" then do
    let atlT ← expectTensor action_type_logit
    let (drawn, rng1) ← torchMultinomial atlT rng
    let action_type ← tensorItem drawn
    let atn ← lookupName env "action_type_names"
    let select_action_name ← subscriptInt atn action_type
    let aonm ← lookupName env "action_obs_name_map"
    let select_encoded_obs_name ← subscriptVal aonm select_action_name
    let headKey ← expectStr select_action_name
    let argHead ← moduleDictGet m.actorActionArgs headKey
    let obsT ← expectTensor obs_embedding
    let encPart ← subscriptVal encoded_obs select_encoded_obs_name
    let encT ← expectTensor encPart
    let action_args_logit ← ActionArgHead.forward argHead obsT atlT encT
    let (drawn2, rng2) ← torchMultinomial action_args_logit rng1
    let action_args ← tensorItem drawn2
    Except.ok
      (Value.dict [("logit", Value.dict
        [("action_type", Value.int action_type), ("action_args", Value.int action_args)])], rng2)
  else if sample_action_type = "argmax" then do
    let atlT ← expectTensor action_type_logit
    let action_type ← torchArgmaxFlat atlT
    let atn ← lookupName env "action_type_names"
    let select_action_name ← subscriptInt atn action_type
    let aonm ← lookupName env "action_obs_name_map"
    let select_encoded_obs_name ← subscriptVal aonm select_action_name
    let headKey ← expectStr select_action_name
    let argHead ← moduleDictGet m.actorActionArgs headKey
    let obsT ← expectTensor obs_embedding
    let encPart ← subscriptVal encoded_obs select_encoded_obs_name
    let encT ← expectTensor encPart
    let action_args_logit ← ActionArgHead.forward argHead obsT atlT encT
    let am ← torchArgmaxDim1 action_args_logit
    let action_args ← tensorItem am
    Except.ok
      (Value.dict [("logit", Value.dict
        [("action_type", Value.int action_type), ("action_args", Value.int action_args)])], rng)
  else
    Except.error (PyErr.nameError "action_type")

/-- `GenshinVAC.compute_actor_critic` (lines 149-181): line 155 computes
`value = self.critic_head(obs_embedding)['pred']` first, then lines 157-179
repeat the body of `compute_actor` verbatim, and line 181 returns
`{'logit': {...}, 'value': value}`. -/
def computeActorCritic (env : Env) (m : GenshinVAC)
    (obs_embedding encoded_obs : Value) (sample_action_type : String)
    (rng : List Nat) : Except PyErr (Value × List Nat) := do
  let cv ← m.criticHead obs_embedding
  let value ← getItem cv "pred"
  let sub ← lookupName env "sample_action_typein"
  let cond ← subscriptList sub
  let _ ← pyAssert cond "sample_action_type should be 'argmax' or 'normal'"
  let atd ← m.actorActionType obs_embedding
  let action_type_logit ← getItem atd "logit"
  if sample_action_type = "normal" then do
    let atlT ← expectTensor action_type_logit
    let (drawn, rng1) ← torchMultinomial atlT rng
    let action_type ← tensorItem drawn
    let atn ← lookupName env "action_type_names"
    let select_action_name ← subscriptInt atn action_type
    let aonm ← lookupName env "action_obs_name_map"
    let select_encoded_obs_name ← subscriptVal aonm select_action_name
    let headKey ← expectStr select_action_name
    let argHead ← moduleDictGet m.actorActionArgs headKey
    let obsT ← expectTensor obs_embedding
    let encPart ← subscriptVal encoded_obs select_encoded_obs_name
    let encT ← expectTensor encPart
    let action_args_logit ← ActionArgHead.forward argHead obsT atlT encT
    let (drawn2, rng2) ← torchMultinomial action_args_logit rng1
    let action_args ← tensorItem drawn2
    Except.ok
      (Value.dict [("logit", Value.dict
        [("action_type", Value.int action_type), ("action_args", Value.int action_args)]),
        ("value", value)], rng2)
  else if sample_action_type = "argmax" then do
    let atlT ← expectTensor action_type_logit
    let action_type ← torchArgmaxFlat atlT
    let atn ← lookupName env "action_type_names"
    let select_action_name ← subscriptInt atn action_type
    let aonm ← lookupName env "action_obs_name_map"
    let select_encoded_obs_name ← subscriptVal aonm select_action_name
    let headKey ← expectStr select_action_name
    let argHead ← moduleDictGet m.actorActionArgs headKey
    let obsT ← expectTensor obs_embedding
    let encPart ← subscriptVal encoded_obs select_encoded_obs_name
    let encT ← expectTensor encPart
    let action_args_logit ← ActionArgHead.forward argHead obsT atlT encT
    let am ← torchArgmaxDim1 action_args_logit
    let action_args ← tensorItem am
    Except.ok
      (Value.dict [("logit", Value.dict
        [("action_type", Value.int action_type), ("action_args", Value.int action_args)]),
        ("value", value)], rng)
  else
    Except.error (PyErr.nameError "action_type")

/-- Python binding of the single positional argument `inputs` that
`forward` passes on (line 110): `compute_actor` and `compute_actor_critic`
require a second positional `encoded_obs`, so the call fails at binding;
`compute_critic(inputs)` binds and runs.  Names outside the mode list sit
behind the line-109 assertion. -/
def callMethod (m : GenshinVAC) (mode : String) (inputs : Value) :
    Except PyErr Value :=
  if mode = "compute_actor" then
    Except.error (PyErr.typeError
      "compute_actor() missing 1 required positional argument: 'encoded_obs'")
  else if mode = "compute_critic" then computeCritic m inputs
  else if mode = "compute_actor_critic" then
    Except.error (PyErr.typeError
      "compute_actor_critic() missing 1 required positional argument: 'encoded_obs'")
  else Except.error (PyErr.typeError ("object has no attribute " ++ mode))

/-- `GenshinVAC.forward` (lines 108-110):
`assert mode in self.mode, "not support forward mode: {}/{}".format(mode,
self.mode)` then `return getattr(self, mode)(inputs)`. -/
def GenshinVACforward (m : GenshinVAC) (inputs : Value) (mode : String) :
    Except PyErr Value :=
  if mode ∈ GenshinVACmodeList then callMethod m mode inputs
  else Except.error (PyErr.assertionError
    ("not support forward mode: " ++ mode ++ "/" ++ pyListRepr GenshinVACmodeList))

/-! Concrete instances used by witnesses and concrete evaluations. -/

/-- A concrete head library: deterministic integer weights. -/
def libX : LibModules :=
  { regressionHead := fun _ _ _ => fun _ => Except.ok (Value.dict [("pred", Value.int 0)])
    discreteHead := fun _ _ _ => fun _ =>
      Except.ok (Value.dict [("logit", Value.tensor ⟨[1, 3], [1, 2, 3]⟩)])
    mkLinear := fun a b =>
      { inFeatures := a, outFeatures := b
        weight := List.replicate b (List.replicate a 1)
        bias := List.replicate b 0 } }

/-- A concrete `GenshinVAC` instance (fields as the constructor would fill
them, were it able to complete). -/
def mY : GenshinVAC :=
  { obsEmbeddingShape := 2
    actionShape := Value.int 0
    criticHead := fun _ => Except.ok (Value.dict [("pred", Value.int 3)])
    actorActionType := fun _ => Except.ok (Value.dict [("logit", Value.tensor ⟨[1, 2], [1, 2]⟩)])
    actorActionArgs := [] }

/-- `mY` with every actor-side field replaced, critic head unchanged. -/
def mYactorChanged : GenshinVAC :=
  { obsEmbeddingShape := 9
    actionShape := Value.str "other"
    criticHead := fun _ => Except.ok (Value.dict [("pred", Value.int 3)])
    actorActionType := fun _ => Except.error (PyErr.typeError "different actor head")
    actorActionArgs := [("play_card",
      { W_k := { inFeatures := 1, outFeatures := 1, weight := [[2]], bias := [1] }
        W_q := { inFeatures := 1, outFeatures := 1, weight := [[2]], bias := [1] } })] }

/-- A 1-in/1-out `ActionArgHead` (`H = T = F = 1`). -/
def headB1 : ActionArgHead :=
  { W_k := { inFeatures := 1, outFeatures := 1, weight := [[1]], bias := [0] }
    W_q := { inFeatures := 1, outFeatures := 1, weight := [[1]], bias := [0] } }

/-- An `ActionArgHead` with `H = T = F = 1` and non-trivial weights, used on
an `A = 2` input. -/
def headB2 : ActionArgHead :=
  { W_k := { inFeatures := 1, outFeatures := 1, weight := [[2]], bias := [1] }
    W_q := { inFeatures := 1, outFeatures := 1, weight := [[3]], bias := [0] } }

/-! Helper lemmas. -/

theorem bindOkE {e a b : Type} (x : a) (k : a → Except e b) :
    (Except.ok x >>= k) = k x := rfl

theorem bindErrE {e a b : Type} (er : e) (k : a → Except e b) :
    ((Except.error er : Except e a) >>= k) = Except.error er := rfl

theorem getItemValueEntry (p : Value) :
    getItem (Value.dict [("value", p)]) "value" = Except.ok p := rfl

theorem pyListReprModes :
    pyListRepr GenshinVACmodeList =
      "['compute_actor', 'compute_critic', 'compute_actor_critic']" := rfl

set_option maxHeartbeats 1000000 in
/-- Both `compute_actor` bodies stop at line 119/157: the name
`sample_action_typein` either fails to resolve (`NameError`) or, were it
bound, is subscripted with a list literal (`TypeError`).  Shared by the
equivalence and determinism proofs below. -/
theorem computeActorStuck (env : Env) (m : GenshinVAC) (obs enc : Value)
    (sat : String) (rng : List Nat) :
    computeActor env m obs enc sat rng =
      (match env "sample_action_typein" with
       | none => Except.error (PyErr.nameError "sample_action_typein")
       | some _ => Except.error (PyErr.typeError "unhashable type: list")) := by
  unfold computeActor lookupName
  cases he : env "sample_action_typein" with
  | none => rfl
  | some v => rfl

/-! Claim theorems. -/

/-- Claim C1 (failing evaluation): with B = A = H = T = F = 1, an
observation embedding of shape (B, H), an action-type logit of shape (B, T)
and an encoded sub-observation of shape (B, A, F), `ActionArgHead.forward`
does not return a logit tensor of shape (B, A): `torch.mm` on line 42
rejects the 3-D `query.unsqueeze(1)` and `key.T` and the call raises. -/
theorem c1_actionArgHead_forward_batched_raises :
    ActionArgHead.forward headB1 ⟨[1, 1], [5]⟩ ⟨[1, 1], [3]⟩ ⟨[1, 1, 1], [2]⟩ =
      Except.error (PyErr.runtimeError "self must be a matrix") := rfl

/-- Claim C2: for every environment resolving the module's free names, every
module instance, every input and the same random stream, the result of
`compute_actor_critic` equals the combination of independently calling
`compute_critic` (supplying the `value` field) and `compute_actor`
(supplying the `logit` field and the advanced random stream). -/
theorem c2_computeActorCritic_combines_actor_and_critic :
    ∀ (env : Env) (m : GenshinVAC) (obs enc : Value) (sat : String) (rng : List Nat),
    computeActorCritic env m obs enc sat rng =
      (computeCritic m obs >>= fun c =>
       getItem c "value" >>= fun v =>
       computeActor env m obs enc sat rng >>= fun ar =>
       getItem ar.1 "logit" >>= fun l =>
       Except.ok (Value.dict [("logit", l), ("value", v)], ar.2)) := by
  intro env m obs enc sat rng
  unfold computeActorCritic computeCritic computeActor
  cases hc : m.criticHead obs with
  | error e => simp only [bindErrE]
  | ok cv =>
    simp only [bindOkE]
    cases hp : getItem cv "pred" with
    | error e => simp only [bindErrE]
    | ok p =>
      simp only [bindOkE, getItemValueEntry]
      unfold lookupName
      cases he : env "sample_action_typein" with
      | none => simp only [bindErrE]
      | some v => simp only [bindOkE, subscriptList, bindErrE]

/-- Claim C3 (failing evaluation): calling `compute_actor` or
`compute_actor_critic` with the invalid `sample_action_type` value `"foo"`
does not raise the intended `AssertionError` ("sample_action_type should be
'argmax' or 'normal'"); line 119/157 instead raises `NameError` on the
misspelled `sample_action_typein`. -/
theorem c3_invalid_sample_action_type_raises_nameError :
    computeActor moduleEnv mY (Value.int 0) (Value.dict []) "foo" [] =
      Except.error (PyErr.nameError "sample_action_typein") ∧
    computeActorCritic moduleEnv mY (Value.int 0) (Value.dict []) "foo" [] =
      Except.error (PyErr.nameError "sample_action_typein") := ⟨rfl, rfl⟩

/-- Claim C4: for every mode string outside
`['compute_actor', 'compute_critic', 'compute_actor_critic']`,
`GenshinVAC.forward` raises the line-109 assertion whose message names the
offending mode and the supported set; for every mode in that set it
dispatches `getattr(self, mode)(inputs)` on the given inputs. -/
theorem c4_forward_mode_validation_and_dispatch :
    ∀ (m : GenshinVAC) (inputs : Value) (mode : String),
    (mode ∉ GenshinVACmodeList →
      GenshinVACforward m inputs mode = Except.error (PyErr.assertionError
        ("not support forward mode: " ++ mode ++ "/" ++
          "['compute_actor', 'compute_critic', 'compute_actor_critic']"))) ∧
    (mode ∈ GenshinVACmodeList →
      GenshinVACforward m inputs mode = callMethod m mode inputs) := by
  intro m inputs mode
  constructor
  · intro h
    unfold GenshinVACforward
    rw [if_neg h, pyListReprModes]
  · intro h
    unfold GenshinVACforward
    rw [if_pos h]

/-- Claim C4 witness: a rejected mode gets the assertion message naming it
and the supported set; a supported mode dispatches to the bound method. -/
theorem c4_forward_mode_witness :
    GenshinVACforward mY (Value.int 0) "bogus" = Except.error (PyErr.assertionError
      ("not support forward mode: " ++ "bogus" ++ "/" ++
        "['compute_actor', 'compute_critic', 'compute_actor_critic']")) ∧
    GenshinVACforward mY (Value.int 0) "compute_critic" =
      callMethod mY "compute_critic" (Value.int 0) :=
  ⟨(c4_forward_mode_validation_and_dispatch mY (Value.int 0) "bogus").1 (by decide),
   (c4_forward_mode_validation_and_dispatch mY (Value.int 0) "compute_critic").2 (by decide)⟩

/-- Claim C5 (failing evaluation): with B = 1, A = 2, H = T = F = 1 and
consistent weights, `ActionArgHead.forward` does not produce the logits
`logit[b][a] = <W_q(action_type_logit)[b] + obs_embedding[b],
W_k(encoded_part_obs)[b][a]>` (which here would be the shape-(1, 2) tensor
of dot products); line 42's `torch.mm` raises on the 3-D operands, so no
logits are produced at all. -/
theorem c5_actionArgHead_forward_not_dot_products :
    ActionArgHead.forward headB2 ⟨[1, 1], [4]⟩ ⟨[1, 1], [1]⟩ ⟨[1, 2, 1], [1, 2]⟩ =
      Except.error (PyErr.runtimeError "self must be a matrix") := rfl

/-- Claim C6: whenever the shared regression head accepts the observation
embedding, `compute_critic` returns a dictionary whose `value` entry is the
head's `pred` output, and the result is unchanged under replacing every
actor-side field of the module (it depends on the critic head only; the
method takes no `encoded_obs` or `sample_action_type` argument at all). -/
theorem c6_computeCritic_value_actor_independent :
    ∀ (m mp : GenshinVAC) (obs cv p : Value),
    mp.criticHead = m.criticHead →
    m.criticHead obs = Except.ok cv → getItem cv "pred" = Except.ok p →
    computeCritic m obs = Except.ok (Value.dict [("value", p)]) ∧
    computeCritic mp obs = computeCritic m obs := by
  intro m mp obs cv p hsame hc hp
  constructor
  · unfold computeCritic
    rw [hc]
    simp only [bindOkE]
    rw [hp]
    rfl
  · unfold computeCritic
    rw [hsame]

/-- Claim C6 witness: a concrete module and the same module with all
actor-side fields replaced give the same `{'value': ...}` result. -/
theorem c6_computeCritic_witness :
    computeCritic mY (Value.int 0) = Except.ok (Value.dict [("value", Value.int 3)]) ∧
    computeCritic mYactorChanged (Value.int 0) = computeCritic mY (Value.int 0) :=
  c6_computeCritic_value_actor_independent mY mYactorChanged (Value.int 0)
    (Value.dict [("pred", Value.int 3)]) (Value.int 3) rfl rfl rfl

/-- Claim C7: with fixed module weights and fixed inputs,
`compute_actor` with `sample_action_type = "argmax"` is deterministic: its
outcome does not depend on the random state, for every resolution of the
module's free names (the argmax path never draws from the random stream). -/
theorem c7_computeActor_argmax_deterministic :
    ∀ (env : Env) (m : GenshinVAC) (obs enc : Value) (rng1 rng2 : List Nat),
    Except.map Prod.fst (computeActor env m obs enc "argmax" rng1) =
    Except.map Prod.fst (computeActor env m obs enc "argmax" rng2) := by
  intro env m obs enc rng1 rng2
  rw [computeActorStuck, computeActorStuck]

/-- Claim C8 (failing evaluation): constructing `GenshinVAC` with an
action-arg space `['play_card', 'end_round']` raises `NameError` on
`actor_head_layer_num` (line 92) before the argument-head `ModuleDict` of
lines 97-105 is ever built, so no name — neither the excluded
`'end_round'` nor `'play_card'` — receives an `ActionArgHead`. -/
theorem c8_init_with_excluded_names_creates_no_heads :
    GenshinVACinit libX moduleEnv 4 (Value.int 0)
      ⟨3, ["play_card", "end_round"]⟩ [("card_obs", 5)] 64 1 =
      Except.error (PyErr.nameError "actor_head_layer_num") := rfl

/-- Claim C9: for every combination of constructor arguments,
`GenshinVAC.__init__` raises a name-resolution error before completing —
the `DiscreteHead` construction reads the unbound `actor_head_layer_num`
(and the later `ModuleDict` comprehension reads the unbound
`action_obs_name_map`) — so no `GenshinVAC` instance is ever constructed. -/
theorem c9_init_always_raises_nameError :
    ∀ (lib : LibModules) (obsSh : Nat) (ash : Value) (aspace : ActionSpace)
    (encSh : List (String × Nat)) (chh chl : Nat),
    GenshinVACinit lib moduleEnv obsSh ash aspace encSh chh chl =
      Except.error (PyErr.nameError "actor_head_layer_num") := by
  intro lib obsSh ash aspace encSh chh chl
  rfl

/-- Claim C10: for every input with a `sample_action_type` that selects an
action branch (`'argmax'` or `'normal'`), and whenever the critic prefix of
`compute_actor_critic` succeeds, both `compute_actor` and
`compute_actor_critic` under the actual module scope raise a
name-resolution error instead of returning the documented result
dictionary (`sample_action_typein` on line 119/157 is the first unbound
bare name hit; `action_type_names` and `action_obs_name_map` in the branch
bodies are likewise unbound). -/
theorem c10_selection_never_returns :
    ∀ (m : GenshinVAC) (obs enc : Value) (sat : String) (rng : List Nat) (cv p : Value),
    (sat = "argmax" ∨ sat = "normal") →
    m.criticHead obs = Except.ok cv → getItem cv "pred" = Except.ok p →
    computeActor moduleEnv m obs enc sat rng =
      Except.error (PyErr.nameError "sample_action_typein") ∧
    computeActorCritic moduleEnv m obs enc sat rng =
      Except.error (PyErr.nameError "sample_action_typein") := by
  intro m obs enc sat rng cv p _h hc hp
  constructor
  · rfl
  · unfold computeActorCritic
    rw [hc]
    simp only [bindOkE]
    rw [hp]
    rfl

/-- Claim C10 witness: a concrete module instance with a succeeding critic
head, called with `'argmax'`, raises the name-resolution error in both
methods. -/
theorem c10_selection_witness :
    computeActor moduleEnv mY (Value.int 0) (Value.dict []) "argmax" [] =
      Except.error (PyErr.nameError "sample_action_typein") ∧
    computeActorCritic moduleEnv mY (Value.int 0) (Value.dict []) "argmax" [] =
      Except.error (PyErr.nameError "sample_action_typein") :=
  c10_selection_never_returns mY (Value.int 0) (Value.dict []) "argmax" []
    (Value.dict [("pred", Value.int 3)]) (Value.int 3) (Or.inl rfl) rfl rfl
